import Mathlib

/-!
Shallow embedding of the subscription service in `main.go` of
IdyllAc/myidyArabic: the SQLite-backed store (`subscribers`, `messages`
tables), the audit-log file, the outbound-mail notifier and the HTTP
handlers `handleEmailSubscription`, `handleListSubscribers` and
`handleViewEmails`.

The database is modelled as in-memory lists with explicit autoincrement
counters; file-system and driver failures are injected through an explicit
`Faults` record (a `some e` field stands for the corresponding Go call
returning error `e`); HTTP responses are a status code plus a plain-text
body.
-/

/-- One row of the `subscribers` table:
`id INTEGER PRIMARY KEY AUTOINCREMENT, email TEXT UNIQUE NOT NULL`. -/
structure Subscriber where
  id : Nat
  email : String
deriving DecidableEq, Repr

/-- One row of the `messages` table:
`id INTEGER PRIMARY KEY AUTOINCREMENT, subscriber_id INTEGER, message TEXT,
created_at DATETIME DEFAULT CURRENT_TIMESTAMP`. The timestamp is an
abstract tick supplied by the caller. -/
structure Message where
  id : Nat
  subscriber_id : Nat
  message : String
  created_at : Nat
deriving DecidableEq, Repr

/-- The relational store created by `createTables`: both tables plus the
autoincrement counters (SQLite AUTOINCREMENT starts at 1). -/
structure Store where
  subscribers : List Subscriber := []
  messages : List Message := []
  nextSubscriberId : Nat := 1
  nextMessageId : Nat := 1
deriving DecidableEq, Repr

/-- The store right after `createTables` on a fresh database: two empty
tables. -/
def createTables : Store := {}

/-- `INSERT OR IGNORE INTO subscribers(email) VALUES(?)`: if a row with
this email exists the statement is a no-op (unique-email conflict is
ignored), otherwise a fresh row is appended with the next autoincrement
id. -/
def Store.insertOrIgnoreSubscriber (s : Store) (email : String) : Store :=
  if s.subscribers.any (fun sub => sub.email = email) then s
  else
    { s with
      subscribers := s.subscribers ++ [{ id := s.nextSubscriberId, email := email }],
      nextSubscriberId := s.nextSubscriberId + 1 }

/-- `SELECT id FROM subscribers WHERE email = ?`: the id of the first row
matching the email, if any. -/
def Store.findSubscriberId (s : Store) (email : String) : Option Nat :=
  (s.subscribers.find? (fun sub => sub.email = email)).map (fun sub => sub.id)

/-- `INSERT INTO messages(subscriber_id, message) VALUES(?, ?)` with the
store-assigned autoincrement id and creation tick. -/
def Store.insertMessage (s : Store) (sid : Nat) (body : String) (now : Nat) : Store :=
  { s with
    messages := s.messages ++
      [{ id := s.nextMessageId, subscriber_id := sid, message := body, created_at := now }],
    nextMessageId := s.nextMessageId + 1 }

/-- `SELECT email FROM subscribers`, in store order. -/
def Store.listEmails (s : Store) : List String :=
  s.subscribers.map (fun sub => sub.email)

/-- The world visible to the handlers: the store, the audit-log file
`subscribers_emails.txt` (`none` = the file does not exist), the list of
`smtp.SendMail` attempts `(to, link)`, the sub-list actually delivered, and
the process log lines. -/
structure World where
  store : Store := {}
  auditFile : Option String := none
  mailAttempts : List (String × String) := []
  delivered : List (String × String) := []
  logLines : List String := []
deriving DecidableEq, Repr

/-- The world at process start: fresh tables, no audit file yet, no mail
sent. -/
def emptyWorld : World := { store := createTables }

/-- Injected failures: for each fallible external call, `some e` makes the
call return error `e` (the driver/OS error string); `auditOpen = true`
makes `os.OpenFile` on the audit log fail. -/
structure Faults where
  step1 : Option String := none
  step2 : Option String := none
  step3 : Option String := none
  auditOpen : Bool := false
  notify : Option String := none
deriving DecidableEq, Repr

/-- No injected failure: every external call succeeds. -/
def noFaults : Faults := {}

/-- An HTTP response: status code and plain-text body. -/
structure Response where
  status : Nat
  body : String
deriving DecidableEq, Repr

/-- `db.Exec("INSERT OR IGNORE INTO subscribers(email) VALUES(?)", email)`
under fault injection. -/
def dbExecInsertOrIgnoreSubscriber (fault : Option String) (s : Store)
    (email : String) : Except String Store :=
  match fault with
  | some e => .error e
  | none => .ok (s.insertOrIgnoreSubscriber email)

/-- `db.QueryRow("SELECT id FROM subscribers WHERE email = ?", email).Scan(&id)`
under fault injection; with no injected fault it still errors when no row
matches (Go's `sql.ErrNoRows`). -/
def dbQueryRowSubscriberId (fault : Option String) (s : Store)
    (email : String) : Except String Nat :=
  match fault with
  | some e => .error e
  | none =>
    match s.findSubscriberId email with
    | some id => .ok id
    | none => .error "sql: no rows in result set"

/-- `db.Exec("INSERT INTO messages(subscriber_id, message) VALUES(?, ?)", id, message)`
under fault injection. -/
def dbExecInsertMessage (fault : Option String) (s : Store) (sid : Nat)
    (body : String) (now : Nat) : Except String Store :=
  match fault with
  | some e => .error e
  | none => .ok (s.insertMessage sid body now)

/-- Go's `url.QueryEscape` on one UTF-8 byte: unreserved bytes pass
through, space becomes `+`, everything else becomes `%XX` with uppercase
hex. -/
def hexDigitUpper (n : Nat) : Char :=
  if n < 10 then Char.ofNat (48 + n) else Char.ofNat (55 + n)

def queryEscapeByte (b : UInt8) : String :=
  let n := b.toNat
  if (65 ≤ n ∧ n ≤ 90) ∨ (97 ≤ n ∧ n ≤ 122) ∨ (48 ≤ n ∧ n ≤ 57)
      ∨ n = 45 ∨ n = 95 ∨ n = 46 ∨ n = 126 then
    String.singleton (Char.ofNat n)
  else if n = 32 then "+"
  else "%" ++ String.singleton (hexDigitUpper (n / 16))
      ++ String.singleton (hexDigitUpper (n % 16))

/-- Go's `url.QueryEscape`: byte-wise escaping of the UTF-8 encoding. -/
def queryEscape (s : String) : String :=
  String.join (s.toUTF8.toList.map queryEscapeByte)

/-- `sendConfirmationEmail(to, link)`: one `smtp.SendMail` attempt; on
transport failure the error is only logged, on success the mail is
delivered and logged. The function returns nothing to its caller either
way. -/
def sendConfirmationEmail (toAddr link : String) (fault : Option String)
    (w : World) : World :=
  match fault with
  | some e =>
    { w with
      mailAttempts := w.mailAttempts ++ [(toAddr, link)],
      logLines := w.logLines ++ ["❌ Email send failed: " ++ e] }
  | none =>
    { w with
      mailAttempts := w.mailAttempts ++ [(toAddr, link)],
      delivered := w.delivered ++ [(toAddr, link)],
      logLines := w.logLines ++ ["✅ Email sent to: " ++ toAddr] }

/-- `handleEmailSubscription` (`POST /subscribe/email`): method check,
non-empty validation, then the five pipeline steps of `main.go`
(subscriber upsert, id lookup, message insert, best-effort audit append,
best-effort confirmation mail). -/
def handleEmailSubscription (method email message : String) (faults : Faults)
    (now : Nat) (w : World) : Response × World :=
  if method ≠ "POST" then
    ({ status := 405, body := "Invalid method" }, w)
  else if email = "" ∨ message = "" then
    ({ status := 400, body := "Email and message are required" }, w)
  else
    match dbExecInsertOrIgnoreSubscriber faults.step1 w.store email with
    | .error e => ({ status := 500, body := "❌ Could not save email: " ++ e }, w)
    | .ok s1 =>
      let w1 : World := { w with store := s1 }
      match dbQueryRowSubscriberId faults.step2 w1.store email with
      | .error e => ({ status := 500, body := "❌ Could not fetch ID: " ++ e }, w1)
      | .ok id =>
        match dbExecInsertMessage faults.step3 w1.store id message now with
        | .error e => ({ status := 500, body := "❌ Could not save message: " ++ e }, w1)
        | .ok s3 =>
          let w3 : World := { w1 with store := s3 }
          let w4 : World :=
            if faults.auditOpen then w3
            else { w3 with
              auditFile := some ((w3.auditFile.getD "") ++ email ++ "\n") }
          let link := "http://localhost:8080/verify?email=" ++ queryEscape email
          let w5 := sendConfirmationEmail email link faults.notify w4
          ({ status := 200, body := "✅ Thanks " ++ email ++ "! Confirmation sent." }, w5)

/-- One email per line, as produced by `fmt.Fprintln` per row. -/
def renderLines (es : List String) : String :=
  es.foldr (fun e acc => e ++ "\n" ++ acc) ""

/-- `handleListSubscribers` (`/subscribers`): queries all emails and
writes one per line. The Go handler never inspects `r.Method`; the unused
parameter mirrors that. -/
def handleListSubscribers (_method : String) (queryFault : Option String)
    (w : World) : Response :=
  match queryFault with
  | some _ => { status := 500, body := "Failed to fetch subscribers" }
  | none => { status := 200, body := renderLines w.store.listEmails }

/-- `handleViewEmails` (`/view-emails`): returns the raw audit-log file,
or 500 when the file cannot be read (it does not exist). The Go handler
never inspects `r.Method`. -/
def handleViewEmails (_method : String) (w : World) : Response :=
  match w.auditFile with
  | none => { status := 500, body := "❌ Cannot read file" }
  | some data => { status := 200, body := data }

/-- A valid submission without injected faults. -/
def submit (email message : String) (now : Nat) (w : World) : Response × World :=
  handleEmailSubscription "POST" email message noFaults now w

/-- Submit a list of `(email)`s (same message body) in order, collecting
the responses. -/
def submitAllResults (m : String) (es : List String) (w : World) :
    List Response × World :=
  match es with
  | [] => ([], w)
  | e :: rest =>
    let rw := submit e m 0 w
    let rws := submitAllResults m rest rw.2
    (rw.1 :: rws.1, rws.2)

/-- Submit the same `(email, message)` pair `k` times starting from the
empty world. -/
def submitIter (email m : String) : Nat → World
  | 0 => emptyWorld
  | k + 1 => (submit email m 0 (submitIter email m k)).2

/-! ## Helper lemmas -/

lemma findSubscriberId_insertOrIgnore_isSome (s : Store) (email : String) :
    ((s.insertOrIgnoreSubscriber email).findSubscriberId email).isSome := by
  unfold Store.insertOrIgnoreSubscriber Store.findSubscriberId
  by_cases h : s.subscribers.any (fun sub => sub.email = email)
  · simp only [if_pos h, Option.isSome_map', List.find?_isSome]
    rcases List.any_eq_true.mp h with ⟨sub, hmem, hp⟩
    exact ⟨sub, hmem, hp⟩
  · simp only [if_neg h, Option.isSome_map', List.find?_isSome]
    refine ⟨{ id := s.nextSubscriberId, email := email }, ?_, by simp⟩
    simp

lemma insertOrIgnore_messages (s : Store) (email : String) :
    (s.insertOrIgnoreSubscriber email).messages = s.messages := by
  unfold Store.insertOrIgnoreSubscriber
  by_cases h : s.subscribers.any (fun sub => sub.email = email) <;> simp [h]

lemma exists_subscriber_insertOrIgnore (s : Store) (email : String) :
    ∃ sub ∈ (s.insertOrIgnoreSubscriber email).subscribers, sub.email = email := by
  unfold Store.insertOrIgnoreSubscriber
  by_cases h : s.subscribers.any (fun sub => sub.email = email)
  · simp only [if_pos h]
    rcases List.any_eq_true.mp h with ⟨sub, hmem, hp⟩
    exact ⟨sub, hmem, by simpa using hp⟩
  · simp only [if_neg h]
    exact ⟨{ id := s.nextSubscriberId, email := email }, by simp, rfl⟩


/-! ## Claims -/

/-- C2: a POST submission with an empty email form value or an empty
message form value returns HTTP 400 "Email and message are required" and
leaves the whole world unchanged: no store write, no audit-log append, no
notification attempt. -/
theorem C2_empty_input_no_effects (email message : String) (faults : Faults)
    (n : Nat) (w : World) (h : email = "" ∨ message = "") :
    handleEmailSubscription "POST" email message faults n w =
      ({ status := 400, body := "Email and message are required" }, w) := by
  unfold handleEmailSubscription
  rw [if_neg (by decide), if_pos h]

theorem C2_empty_input_no_effects_witness :
    handleEmailSubscription "POST" "" "hello" noFaults 0 emptyWorld =
      ({ status := 400, body := "Email and message are required" }, emptyWorld) :=
  C2_empty_input_no_effects "" "hello" noFaults 0 emptyWorld (Or.inl rfl)

/-- C3: the first store error among Steps 1-3 aborts the pipeline and
surfaces as HTTP 500 with the driver error appended to the diagnostic; a
Step-1 failure leaves the world untouched, a Step-2 or Step-3 failure
inserts no Message row, and in all three cases neither the audit-log
append nor the notification attempt happens. -/
theorem C3_fail_fast (email message e : String) (n : Nat) (w : World)
    (he : email ≠ "") (hm : message ≠ "") :
    (handleEmailSubscription "POST" email message { step1 := some e } n w =
      ({ status := 500, body := "❌ Could not save email: " ++ e }, w)) ∧
    ((handleEmailSubscription "POST" email message { step2 := some e } n w).1 =
        { status := 500, body := "❌ Could not fetch ID: " ++ e } ∧
      (handleEmailSubscription "POST" email message { step2 := some e } n w).2.store.messages
        = w.store.messages ∧
      (handleEmailSubscription "POST" email message { step2 := some e } n w).2.auditFile
        = w.auditFile ∧
      (handleEmailSubscription "POST" email message { step2 := some e } n w).2.mailAttempts
        = w.mailAttempts) ∧
    ((handleEmailSubscription "POST" email message { step3 := some e } n w).1 =
        { status := 500, body := "❌ Could not save message: " ++ e } ∧
      (handleEmailSubscription "POST" email message { step3 := some e } n w).2.store.messages
        = w.store.messages ∧
      (handleEmailSubscription "POST" email message { step3 := some e } n w).2.auditFile
        = w.auditFile ∧
      (handleEmailSubscription "POST" email message { step3 := some e } n w).2.mailAttempts
        = w.mailAttempts) := by
  obtain ⟨idv, hid⟩ := Option.isSome_iff_exists.mp
    (findSubscriberId_insertOrIgnore_isSome w.store email)
  refine ⟨?_, ⟨?_, ?_, ?_, ?_⟩, ⟨?_, ?_, ?_, ?_⟩⟩ <;>
    simp [handleEmailSubscription, dbExecInsertOrIgnoreSubscriber,
      dbQueryRowSubscriberId, dbExecInsertMessage, he, hm, hid,
      insertOrIgnore_messages]

theorem C3_fail_fast_witness :
    handleEmailSubscription "POST" "a@example.com" "hello" { step1 := some "boom" } 0 emptyWorld =
      ({ status := 500, body := "❌ Could not save email: " ++ "boom" }, emptyWorld) :=
  (C3_fail_fast "a@example.com" "hello" "boom" 0 emptyWorld (by decide) (by decide)).1

/-- C4: when Step 3 (the message insert) fails after Steps 1-2 succeeded,
the caller gets HTTP 500 but the Step-1 effect is not rolled back: a
Subscriber row for the submitted email exists in the returned store. -/
theorem C4_no_rollback (email message e : String) (n : Nat) (w : World)
    (he : email ≠ "") (hm : message ≠ "") :
    (handleEmailSubscription "POST" email message { step3 := some e } n w).1.status = 500 ∧
    ∃ sub ∈ (handleEmailSubscription "POST" email message { step3 := some e } n w).2.store.subscribers,
      sub.email = email := by
  obtain ⟨idv, hid⟩ := Option.isSome_iff_exists.mp
    (findSubscriberId_insertOrIgnore_isSome w.store email)
  constructor
  · simp [handleEmailSubscription, dbExecInsertOrIgnoreSubscriber,
      dbQueryRowSubscriberId, dbExecInsertMessage, he, hm, hid]
  · have hmem := exists_subscriber_insertOrIgnore w.store email
    simpa [handleEmailSubscription, dbExecInsertOrIgnoreSubscriber,
      dbQueryRowSubscriberId, dbExecInsertMessage, he, hm, hid] using hmem

theorem C4_no_rollback_witness :
    (handleEmailSubscription "POST" "a@example.com" "hello" { step3 := some "boom" } 0 emptyWorld).1.status = 500 ∧
    ∃ sub ∈ (handleEmailSubscription "POST" "a@example.com" "hello" { step3 := some "boom" } 0 emptyWorld).2.store.subscribers,
      sub.email = "a@example.com" :=
  C4_no_rollback "a@example.com" "hello" "boom" 0 emptyWorld (by decide) (by decide)

/-- C8 counterexample: a POST request to `/subscribers` is not rejected:
`handleListSubscribers` never inspects the request method, so the POST
receives HTTP 200 with the subscriber list, contradicting the claim that
non-GET requests are rejected without the list. -/
theorem C8_counterexample :
    handleListSubscribers "POST" none
        { store := { subscribers := [{ id := 1, email := "a@example.com" }],
                     nextSubscriberId := 2 } } =
      { status := 200, body := "a@example.com\n" } := by
  rfl

/-- C8 (amended): `/subscribers` is not method-constrained: the handler
ignores the request method entirely, so every method receives exactly the
response a GET receives. -/
theorem C8_method_ignored (method : String) (queryFault : Option String) (w : World) :
    handleListSubscribers method queryFault w = handleListSubscribers "GET" queryFault w := by
  rfl

/-- C9: `GET /view-emails` answers HTTP 500 "❌ Cannot read file" when the
audit-log file does not exist, and otherwise returns HTTP 200 whose body
is exactly the file's raw contents. -/
theorem C9_view_emails (w : World) :
    (w.auditFile = none →
      handleViewEmails "GET" w = { status := 500, body := "❌ Cannot read file" }) ∧
    (∀ data, w.auditFile = some data →
      handleViewEmails "GET" w = { status := 200, body := data }) := by
  constructor
  · intro h
    unfold handleViewEmails
    rw [h]
  · intro data h
    unfold handleViewEmails
    rw [h]

theorem C9_view_emails_witness :
    handleViewEmails "GET" emptyWorld = { status := 500, body := "❌ Cannot read file" } ∧
    handleViewEmails "GET" { auditFile := some "a@example.com\n" } =
      { status := 200, body := "a@example.com\n" } :=
  ⟨(C9_view_emails emptyWorld).1 rfl,
   (C9_view_emails { auditFile := some "a@example.com\n" }).2 "a@example.com\n" rfl⟩

lemma handle_success (email message : String) (f : Faults) (n : Nat) (w : World)
    (he : email ≠ "") (hm : message ≠ "") (h1 : f.step1 = none) (h2 : f.step2 = none)
    (h3 : f.step3 = none) (idv : Nat)
    (hid : (w.store.insertOrIgnoreSubscriber email).findSubscriberId email = some idv) :
    handleEmailSubscription "POST" email message f n w =
      ({ status := 200, body := "✅ Thanks " ++ email ++ "! Confirmation sent." },
       sendConfirmationEmail email
         ("http://localhost:8080/verify?email=" ++ queryEscape email) f.notify
         (if f.auditOpen then
            { w with store := (w.store.insertOrIgnoreSubscriber email).insertMessage idv message n }
          else
            { w with
              store := (w.store.insertOrIgnoreSubscriber email).insertMessage idv message n,
              auditFile := some ((w.auditFile.getD "") ++ email ++ "\n") })) := by
  simp [handleEmailSubscription, dbExecInsertOrIgnoreSubscriber,
    dbQueryRowSubscriberId, dbExecInsertMessage, he, hm, h1, h2, h3, hid]

lemma sendConfirmationEmail_store (a l : String) (f : Option String) (w : World) :
    (sendConfirmationEmail a l f w).store = w.store := by
  cases f <;> rfl

lemma sendConfirmationEmail_auditFile (a l : String) (f : Option String) (w : World) :
    (sendConfirmationEmail a l f w).auditFile = w.auditFile := by
  cases f <;> rfl

/-- C5: with Steps 1-3 succeeding, a failure to open the audit-log file is
swallowed: the caller still gets the HTTP 200 acknowledgment, identical to
the response without the audit failure, and the audit file is left as it
was. -/
theorem C5_audit_failure_swallowed (email message : String) (fn : Option String)
    (n : Nat) (w : World) (he : email ≠ "") (hm : message ≠ "") :
    (handleEmailSubscription "POST" email message { auditOpen := true, notify := fn } n w).1 =
      { status := 200, body := "✅ Thanks " ++ email ++ "! Confirmation sent." } ∧
    (handleEmailSubscription "POST" email message { auditOpen := true, notify := fn } n w).2.auditFile
      = w.auditFile ∧
    (handleEmailSubscription "POST" email message { auditOpen := true, notify := fn } n w).1 =
      (handleEmailSubscription "POST" email message { notify := fn } n w).1 := by
  obtain ⟨idv, hid⟩ := Option.isSome_iff_exists.mp
    (findSubscriberId_insertOrIgnore_isSome w.store email)
  have hA := handle_success email message { auditOpen := true, notify := fn } n w
    he hm rfl rfl rfl idv hid
  have hB := handle_success email message { notify := fn } n w
    he hm rfl rfl rfl idv hid
  refine ⟨by rw [hA], ?_, by rw [hA, hB]⟩
  rw [hA]
  simp [sendConfirmationEmail_auditFile]

theorem C5_audit_failure_swallowed_witness :
    (handleEmailSubscription "POST" "a@example.com" "hello" { auditOpen := true } 0 emptyWorld).1 =
      { status := 200, body := "✅ Thanks " ++ "a@example.com" ++ "! Confirmation sent." } ∧
    (handleEmailSubscription "POST" "a@example.com" "hello" { auditOpen := true } 0 emptyWorld).2.auditFile
      = emptyWorld.auditFile ∧
    (handleEmailSubscription "POST" "a@example.com" "hello" { auditOpen := true } 0 emptyWorld).1 =
      (handleEmailSubscription "POST" "a@example.com" "hello" {} 0 emptyWorld).1 :=
  C5_audit_failure_swallowed "a@example.com" "hello" none 0 emptyWorld (by decide) (by decide)

/-- C6: with Steps 1-3 succeeding, a mail-transport failure in Step 5 does
not change the reported result: the caller gets HTTP 200 whose body
contains the submitted email, identical to the fault-free response, and
the mail is simply not delivered. -/
theorem C6_notify_failure_swallowed (email message e : String) (n : Nat) (w : World)
    (he : email ≠ "") (hm : message ≠ "") :
    (handleEmailSubscription "POST" email message { notify := some e } n w).1.status = 200 ∧
    (∃ pre post,
      (handleEmailSubscription "POST" email message { notify := some e } n w).1.body =
        pre ++ (email ++ post)) ∧
    (handleEmailSubscription "POST" email message { notify := some e } n w).2.delivered
      = w.delivered ∧
    (handleEmailSubscription "POST" email message { notify := some e } n w).1 =
      (handleEmailSubscription "POST" email message noFaults n w).1 := by
  obtain ⟨idv, hid⟩ := Option.isSome_iff_exists.mp
    (findSubscriberId_insertOrIgnore_isSome w.store email)
  have hA := handle_success email message { notify := some e } n w he hm rfl rfl rfl idv hid
  have hB := handle_success email message noFaults n w he hm rfl rfl rfl idv hid
  refine ⟨by rw [hA], ⟨"✅ Thanks ", "! Confirmation sent.", by rw [hA]; rfl⟩, ?_, by rw [hA, hB]⟩
  rw [hA]
  simp [sendConfirmationEmail]

theorem C6_notify_failure_swallowed_witness :
    (handleEmailSubscription "POST" "a@example.com" "hello" { notify := some "transport down" } 0 emptyWorld).1.status = 200 ∧
    (∃ pre post,
      (handleEmailSubscription "POST" "a@example.com" "hello" { notify := some "transport down" } 0 emptyWorld).1.body =
        pre ++ ("a@example.com" ++ post)) ∧
    (handleEmailSubscription "POST" "a@example.com" "hello" { notify := some "transport down" } 0 emptyWorld).2.delivered
      = emptyWorld.delivered ∧
    (handleEmailSubscription "POST" "a@example.com" "hello" { notify := some "transport down" } 0 emptyWorld).1 =
      (handleEmailSubscription "POST" "a@example.com" "hello" noFaults 0 emptyWorld).1 :=
  C6_notify_failure_swallowed "a@example.com" "hello" "transport down" 0 emptyWorld
    (by decide) (by decide)

/-- C1: submitting twice with the same non-empty email (any non-empty
messages) from the empty store succeeds both times and leaves exactly one
Subscriber row for that email — the second upsert is ignored on the
unique-email conflict — and exactly two Message rows, both referencing
that subscriber's id. -/
theorem C1_duplicate_email_single_row (email m1 m2 : String) (n1 n2 : Nat)
    (he : email ≠ "") (h1 : m1 ≠ "") (h2 : m2 ≠ "") :
    (submit email m1 n1 emptyWorld).1.status = 200 ∧
    (submit email m2 n2 (submit email m1 n1 emptyWorld).2).1.status = 200 ∧
    (submit email m2 n2 (submit email m1 n1 emptyWorld).2).2.store.subscribers =
      [{ id := 1, email := email }] ∧
    ((submit email m2 n2 (submit email m1 n1 emptyWorld).2).2.store.subscribers.filter
        (fun sub => sub.email = email)).length = 1 ∧
    (submit email m2 n2 (submit email m1 n1 emptyWorld).2).2.store.findSubscriberId email
      = some 1 ∧
    ((submit email m2 n2 (submit email m1 n1 emptyWorld).2).2.store.messages.filter
        (fun msg => msg.subscriber_id = 1)).length = 2 ∧
    (submit email m2 n2 (submit email m1 n1 emptyWorld).2).2.store.messages.length = 2 := by
  simp [submit, handleEmailSubscription, dbExecInsertOrIgnoreSubscriber,
    dbQueryRowSubscriberId, dbExecInsertMessage, Store.insertOrIgnoreSubscriber,
    Store.findSubscriberId, Store.insertMessage, sendConfirmationEmail,
    emptyWorld, createTables, noFaults, he, h1, h2]

theorem C1_duplicate_email_single_row_witness :
    (submit "a@example.com" "hello" 0 emptyWorld).1.status = 200 ∧
    (submit "a@example.com" "hola" 1 (submit "a@example.com" "hello" 0 emptyWorld).2).1.status = 200 ∧
    (submit "a@example.com" "hola" 1 (submit "a@example.com" "hello" 0 emptyWorld).2).2.store.subscribers =
      [{ id := 1, email := "a@example.com" }] ∧
    ((submit "a@example.com" "hola" 1 (submit "a@example.com" "hello" 0 emptyWorld).2).2.store.subscribers.filter
        (fun sub => sub.email = "a@example.com")).length = 1 ∧
    (submit "a@example.com" "hola" 1 (submit "a@example.com" "hello" 0 emptyWorld).2).2.store.findSubscriberId "a@example.com"
      = some 1 ∧
    ((submit "a@example.com" "hola" 1 (submit "a@example.com" "hello" 0 emptyWorld).2).2.store.messages.filter
        (fun msg => msg.subscriber_id = 1)).length = 2 ∧
    (submit "a@example.com" "hola" 1 (submit "a@example.com" "hello" 0 emptyWorld).2).2.store.messages.length = 2 :=
  C1_duplicate_email_single_row "a@example.com" "hello" "hola" 0 1
    (by decide) (by decide) (by decide)

lemma submit_fresh (e m : String) (n : Nat) (w : World)
    (he : e ≠ "") (hm : m ≠ "")
    (hfresh : ∀ sub ∈ w.store.subscribers, sub.email ≠ e) :
    (submit e m n w).1.status = 200 ∧
    (submit e m n w).2.store.subscribers =
      w.store.subscribers ++ [{ id := w.store.nextSubscriberId, email := e }] ∧
    (submit e m n w).2.auditFile = some ((w.auditFile.getD "") ++ e ++ "\n") := by
  have hany : (w.store.subscribers.any (fun sub => sub.email = e)) = false := by
    rw [List.any_eq_false]
    intro x hx
    simpa using hfresh x hx
  have hins : w.store.insertOrIgnoreSubscriber e =
      { w.store with
        subscribers := w.store.subscribers ++ [{ id := w.store.nextSubscriberId, email := e }],
        nextSubscriberId := w.store.nextSubscriberId + 1 } := by
    unfold Store.insertOrIgnoreSubscriber
    rw [if_neg (by simp [hany])]
  have hfindnone : w.store.subscribers.find? (fun sub => sub.email = e) = none := by
    rw [List.find?_eq_none]
    intro x hx
    simpa using hfresh x hx
  have hid : (w.store.insertOrIgnoreSubscriber e).findSubscriberId e =
      some w.store.nextSubscriberId := by
    rw [hins]
    unfold Store.findSubscriberId
    simp [hfindnone]
  have h := handle_success e m noFaults n w he hm rfl rfl rfl
    w.store.nextSubscriberId hid
  rw [submit, h]
  refine ⟨rfl, ?_, ?_⟩
  · simp [sendConfirmationEmail_store, noFaults, hins, Store.insertMessage]
  · simp [sendConfirmationEmail_auditFile, noFaults]

lemma submit_existing (e m : String) (n : Nat) (w : World)
    (he : e ≠ "") (hm : m ≠ "")
    (hsub : w.store.subscribers = [{ id := 1, email := e }]) :
    (submit e m n w).1.status = 200 ∧
    (submit e m n w).2.store.subscribers = [{ id := 1, email := e }] ∧
    (submit e m n w).2.auditFile = some ((w.auditFile.getD "") ++ e ++ "\n") := by
  have hins : w.store.insertOrIgnoreSubscriber e = w.store := by
    unfold Store.insertOrIgnoreSubscriber
    rw [if_pos (by simp [hsub])]
  have hid : (w.store.insertOrIgnoreSubscriber e).findSubscriberId e = some 1 := by
    rw [hins]
    unfold Store.findSubscriberId
    simp [hsub]
  have h := handle_success e m noFaults n w he hm rfl rfl rfl 1 hid
  rw [submit, h]
  refine ⟨rfl, ?_, ?_⟩
  · simp [sendConfirmationEmail_store, noFaults, hins, Store.insertMessage, hsub]
  · simp [sendConfirmationEmail_auditFile, noFaults]

lemma submitAllResults_fresh (m : String) (hm : m ≠ "") :
    ∀ (es : List String) (w : World), es.Nodup → (∀ e ∈ es, e ≠ "") →
      (∀ e ∈ es, ∀ sub ∈ w.store.subscribers, sub.email ≠ e) →
      (∀ r ∈ (submitAllResults m es w).1, r.status = 200) ∧
      (submitAllResults m es w).1.length = es.length ∧
      (submitAllResults m es w).2.store.subscribers.map (fun sub => sub.email) =
        w.store.subscribers.map (fun sub => sub.email) ++ es := by
  intro es
  induction es with
  | nil =>
    intro w _ _ _
    simp [submitAllResults]
  | cons e rest ih =>
    intro w hnd hne hfresh
    obtain ⟨st200, hsubs, _⟩ := submit_fresh e m 0 w (hne e (by simp)) hm
      (fun sub hs => hfresh e (by simp) sub hs)
    have hfresh' : ∀ e' ∈ rest, ∀ sub ∈ (submit e m 0 w).2.store.subscribers,
        sub.email ≠ e' := by
      intro e' he' sub hs
      rw [hsubs] at hs
      rcases List.mem_append.mp hs with h | h
      · exact hfresh e' (by simp [he']) sub h
      · have hsub : sub = { id := w.store.nextSubscriberId, email := e } := by
          simpa using h
        rw [hsub]
        intro hc
        have hc' : e = e' := hc
        exact (List.nodup_cons.mp hnd).1 (hc'.symm ▸ he')
    obtain ⟨ih1, ih2, ih3⟩ := ih (submit e m 0 w).2 (List.nodup_cons.mp hnd).2
      (fun x hx => hne x (by simp [hx])) hfresh'
    refine ⟨?_, ?_, ?_⟩
    · intro r hr
      simp only [submitAllResults] at hr
      rcases List.mem_cons.mp hr with h | h
      · rw [h]; exact st200
      · exact ih1 r h
    · simp only [submitAllResults, List.length_cons]
      rw [ih2]
    · simp only [submitAllResults]
      rw [ih3, hsubs]
      simp

/-- C7: after N successful submissions with pairwise-distinct non-empty
emails starting from the empty store, every submission returned HTTP 200
and `GET /subscribers` returns exactly those N emails, one per line, in
store order. -/
theorem C7_listing_after_distinct (m : String) (es : List String) (hm : m ≠ "")
    (hnd : es.Nodup) (hne : ∀ e ∈ es, e ≠ "") :
    (∀ r ∈ (submitAllResults m es emptyWorld).1, r.status = 200) ∧
    (submitAllResults m es emptyWorld).1.length = es.length ∧
    (submitAllResults m es emptyWorld).2.store.listEmails = es ∧
    handleListSubscribers "GET" none (submitAllResults m es emptyWorld).2 =
      { status := 200, body := renderLines es } := by
  obtain ⟨a, b, c⟩ := submitAllResults_fresh m hm es emptyWorld hnd hne
    (by simp [emptyWorld, createTables])
  have hle : (submitAllResults m es emptyWorld).2.store.listEmails = es := by
    simpa [Store.listEmails, emptyWorld, createTables] using c
  exact ⟨a, b, hle, by simp [handleListSubscribers, hle]⟩

theorem C7_listing_after_distinct_witness :
    (∀ r ∈ (submitAllResults "hello" ["a@example.com", "b@example.com"] emptyWorld).1, r.status = 200) ∧
    (submitAllResults "hello" ["a@example.com", "b@example.com"] emptyWorld).1.length = 2 ∧
    (submitAllResults "hello" ["a@example.com", "b@example.com"] emptyWorld).2.store.listEmails =
      ["a@example.com", "b@example.com"] ∧
    handleListSubscribers "GET" none (submitAllResults "hello" ["a@example.com", "b@example.com"] emptyWorld).2 =
      { status := 200, body := renderLines ["a@example.com", "b@example.com"] } :=
  C7_listing_after_distinct "hello" ["a@example.com", "b@example.com"]
    (by decide) (by decide) (by decide)

lemma join_replicate_succ (s : String) (k : Nat) :
    String.join (List.replicate (k + 1) s) = String.join (List.replicate k s) ++ s := by
  rw [List.replicate_succ']
  simp [String.join, List.foldl_append]

lemma submitIter_invariant (email m : String) (he : email ≠ "") (hm : m ≠ "") :
    ∀ k, 0 < k →
      (submitIter email m k).store.subscribers = [{ id := 1, email := email }] ∧
      (submitIter email m k).auditFile =
        some (String.join (List.replicate k (email ++ "\n"))) := by
  intro k
  induction k with
  | zero => intro h; exact absurd h (by simp)
  | succ k ih =>
    intro _
    rcases Nat.eq_zero_or_pos k with h0 | hpos
    · subst h0
      obtain ⟨_, hsubs, haud⟩ := submit_fresh email m 0 emptyWorld he hm
        (by simp [emptyWorld, createTables])
      constructor
      · simpa [submitIter, emptyWorld, createTables] using hsubs
      · simp only [submitIter]
        rw [haud]
        simp [emptyWorld, String.join]
    · obtain ⟨hsubs, haud⟩ := ih hpos
      obtain ⟨_, hsubs', haud'⟩ := submit_existing email m 0 (submitIter email m k) he hm hsubs
      constructor
      · simpa [submitIter] using hsubs'
      · simp only [submitIter]
        rw [haud', haud]
        simp [join_replicate_succ, String.append_assoc]

/-- C10: k successful submissions of the same email each append the
address plus a newline to the audit log — also when the address is already
subscribed and Step 1 creates no row — so afterwards the audit log is the
line repeated k times while the store holds exactly one Subscriber row for
the email. -/
theorem C10_audit_counts_every_success (email m : String) (k : Nat)
    (he : email ≠ "") (hm : m ≠ "") (hk : 0 < k) :
    (∀ j, j < k → (submit email m 0 (submitIter email m j)).1.status = 200) ∧
    (submitIter email m k).auditFile =
      some (String.join (List.replicate k (email ++ "\n"))) ∧
    ((submitIter email m k).store.subscribers.filter
        (fun sub => sub.email = email)).length = 1 := by
  refine ⟨?_, (submitIter_invariant email m he hm k hk).2, ?_⟩
  · intro j hj
    rcases Nat.eq_zero_or_pos j with h0 | hpos
    · subst h0
      have := (submit_fresh email m 0 emptyWorld he hm
        (by simp [emptyWorld, createTables])).1
      simpa [submitIter] using this
    · exact (submit_existing email m 0 (submitIter email m j) he hm
        (submitIter_invariant email m he hm j hpos).1).1
  · rw [(submitIter_invariant email m he hm k hk).1]
    simp

theorem C10_audit_counts_every_success_witness :
    (∀ j, j < 3 → (submit "a@example.com" "hello" 0 (submitIter "a@example.com" "hello" j)).1.status = 200) ∧
    (submitIter "a@example.com" "hello" 3).auditFile =
      some (String.join (List.replicate 3 ("a@example.com" ++ "\n"))) ∧
    ((submitIter "a@example.com" "hello" 3).store.subscribers.filter
        (fun sub => sub.email = "a@example.com")).length = 1 :=
  C10_audit_counts_every_success "a@example.com" "hello" 3 (by decide) (by decide) (by decide)
